import Mathlib

/-!
Shallow embedding of picoCTF-shell shell_manager/util.py.

The module is configuration loading and filesystem glue: JSON schema
validation (via voluptuous), name sanitization, canonical install paths,
and recursive copy / clobbering move helpers.

Embedding conventions:
- Parsed JSON values are modelled by the inductive type JSON; Python dicts
  become association lists (json.loads never produces duplicate keys).
- A loader receives the outcome of json.loads as an Option JSON argument
  (none models content that is not parseable as JSON, in which case
  json.loads raises json.JSONDecodeError).
- Raised exceptions are modelled by the Except monad with the PyError
  inductive naming the Python exception class.
- Calls to logger.critical are modelled by a returned list of LogMsg.
- The filesystem contents of a directory are modelled by an association
  list from entry names to FSEntry trees.
- Python str.lower() is modelled on its ASCII fragment; every character
  whose lowercase form lies outside [a-z0-9+-] is replaced by a dash in
  either semantics, so sanitize_name is unaffected on all claims below.
-/

/-- Python exception kinds raised on the code paths of util.py, including
those of the library functions it calls. -/
inductive PyError where
  | exception (msg : String)
  | fatalException
  | jsonDecodeError
  | attributeError
  | assertionError
  | shutilError
  | fileExistsError
  deriving DecidableEq

/-- Critical-severity log messages emitted through logger.critical in
util.py.  excDetail models the second call logger.critical(e) that prints
the caught validation exception. -/
inductive LogMsg where
  | errorValidatingProblem (json_path : String)
  | errorValidatingBundle (json_path : String)
  | errorValidatingConfig (path : String)
  | errorValidatingPortRange (path : String)
  | excDetail
  | invalidPortRange (lo hi : Int)
  deriving DecidableEq

/-- Parsed JSON values as produced by json.loads.  Python booleans are a
distinct constructor (bool is a subclass of int in Python, which the type
checks below take into account). -/
inductive JSON where
  | null
  | bool (b : Bool)
  | int (n : Int)
  | str (s : String)
  | list (items : List JSON)
  | dict (entries : List (String × JSON))

/-- One entry of a directory tree: a regular file with contents, or a
subdirectory with its own named entries. -/
inductive FSEntry where
  | file (content : String)
  | dir (entries : List (String × FSEntry))

/-- Membership test of a string in a list of strings; model of the Python
expression k in keys. -/
def keyMem (k : String) : List String → Bool
  | [] => false
  | x :: xs => (k == x) || keyMem k xs

/-- Lookup of a key in an association list; model of Python dict access
(json.loads produces dicts without duplicate keys). -/
def lookupKey {α : Type} (k : String) : List (String × α) → Option α
  | [] => none
  | (k2, v) :: rest => if k == k2 then some v else lookupKey k rest

/-- Replacement or insertion of a binding in an association list; model of
creating a file or directory entry under a directory. -/
def setE {α : Type} (k : String) (v : α) : List (String × α) → List (String × α)
  | [] => [(k, v)]
  | (k2, v2) :: rest => if k2 == k then (k, v) :: rest else (k2, v2) :: setE k v rest

/-- Removal of a binding from an association list; model of os.unlink of a
file inside a directory. -/
def removeE {α : Type} (k : String) : List (String × α) → List (String × α)
  | [] => []
  | (k2, v2) :: rest => if k2 == k then removeE k rest else (k2, v2) :: removeE k rest

/-- Model of Python str.startswith. -/
def pyStartsWith (s pre : String) : Bool :=
  pre.data.isPrefixOf s.data

/-- Model of Python str.endswith. -/
def pyEndsWith (s suf : String) : Bool :=
  suf.data.isSuffixOf s.data

/-- Model of posixpath.join for two components, as used throughout
util.py (os.sep is the single character slash). -/
def os_path_join (path b : String) : String :=
  if pyStartsWith b "/" then b
  else if path == "" || pyEndsWith path "/" then path ++ b
  else path ++ "/" ++ b

/-- Root of the hacksports local store (util.py line 20). -/
def HACKSPORTS_ROOT : String := "/opt/hacksports/"

/-- PROBLEM_ROOT = join(HACKSPORTS_ROOT, "sources") (util.py line 21). -/
def PROBLEM_ROOT : String := os_path_join HACKSPORTS_ROOT "sources"

/-- EXTRA_ROOT = join(HACKSPORTS_ROOT, "extra") (util.py line 22). -/
def EXTRA_ROOT : String := os_path_join HACKSPORTS_ROOT "extra"

/-- STAGING_ROOT = join(HACKSPORTS_ROOT, "staging") (util.py line 23). -/
def STAGING_ROOT : String := os_path_join HACKSPORTS_ROOT "staging"

/-- DEPLOYED_ROOT = join(HACKSPORTS_ROOT, "deployed") (util.py line 24). -/
def DEPLOYED_ROOT : String := os_path_join HACKSPORTS_ROOT "deployed"

/-- BUNDLE_ROOT = join(HACKSPORTS_ROOT, "bundles") (util.py line 25). -/
def BUNDLE_ROOT : String := os_path_join HACKSPORTS_ROOT "bundles"

/-- ASCII fragment of Python str.lower applied characterwise. -/
def asciiLower (c : Char) : Char :=
  if 65 ≤ c.toNat ∧ c.toNat ≤ 90 then Char.ofNat (c.toNat + 32) else c

/-- Membership in the regex character class [a-z0-9+-] of the substitution
in sanitize_name. -/
def isKeep (c : Char) : Bool :=
  decide ((97 ≤ c.toNat ∧ c.toNat ≤ 122) ∨ (48 ≤ c.toNat ∧ c.toNat ≤ 57) ∨
    c.toNat = 43 ∨ c.toNat = 45)

/-- Characterwise effect of name.lower() followed by
re.sub of every character outside [a-z0-9+-] with a dash. -/
def subChar (c : Char) : Char :=
  if isKeep (asciiLower c) then asciiLower c else '-'

/-- Test whether the first character of a character list is one of
string.digits, as in the check sanitized_name[0] in string.digits. -/
def digitHead : List Char → Bool
  | [] => false
  | c :: _ => decide (48 ≤ c.toNat ∧ c.toNat ≤ 57)

/-- sanitize_name (util.py lines 89 to 108): raise on an empty name, map
every lowercased character outside [a-z0-9+-] to a dash, and prepend the
character p when the result would begin with a decimal digit.  The Python
code raises a bare Exception with this message on an empty name. -/
def sanitize_name (name : String) : Except PyError String :=
  if name.data.isEmpty then
    .error (.exception "Can not sanitize an empty field.")
  else
    let sanitized := name.data.map subChar
    if digitHead sanitized then .ok (String.mk ('p' :: sanitized))
    else .ok (String.mk sanitized)

/-- Keys accepted by problem_schema (util.py lines 27 to 41). -/
def problemKeys : List String :=
  ["author", "score", "name", "description", "category", "hints",
   "version", "tags", "organization", "pkg_description", "pkg_name",
   "pkg_dependencies", "pip_requirements"]

/-- Keys accepted by bundle_schema (util.py lines 43 to 54). -/
def bundleKeys : List String :=
  ["author", "problems", "name", "description", "categories",
   "version", "tags", "organization", "dependencies", "pkg_dependencies"]

/-- Required keys of config_schema (util.py lines 56 to 65); the schema is
declared with extra=True so unknown keys are permitted. -/
def configKeys : List String :=
  ["deploy_secret", "hostname", "web_server", "default_user", "web_root",
   "problem_directory_root", "obfuscate_problem_directories", "banned_ports"]

/-- Keys accepted by port_range_schema (util.py lines 67 to 70). -/
def portRangeKeys : List String := ["start", "end"]

/-- voluptuous All(str, Length(min=mn, max=mx)). -/
def checkStrLen (mn mx : Nat) : JSON → Bool
  | .str s => decide (mn ≤ s.length ∧ s.length ≤ mx)
  | _ => false

/-- voluptuous str type check. -/
def isStr : JSON → Bool
  | .str _ => true
  | _ => false

/-- voluptuous list type check. -/
def isList : JSON → Bool
  | .list _ => true
  | _ => false

/-- voluptuous dict type check. -/
def isDictV : JSON → Bool
  | .dict _ => true
  | _ => false

/-- voluptuous bool type check. -/
def isBoolV : JSON → Bool
  | .bool _ => true
  | _ => false

/-- voluptuous All(int, Range(min=0)); Python bool is a subclass of int
and both False and True are at least 0. -/
def checkScore : JSON → Bool
  | .int n => decide (0 ≤ n)
  | .bool _ => true
  | _ => false

/-- voluptuous All(int, Range(min=0, max=66635)) of port_range_schema;
Python bool is a subclass of int and 0 and 1 lie inside the range. -/
def checkPort : JSON → Bool
  | .int n => decide (0 ≤ n ∧ n ≤ 66635)
  | .bool _ => true
  | _ => false

/-- Check of a Required(key) entry of a voluptuous schema: the key must be
present and its value must pass the given validator. -/
def reqKey (entries : List (String × JSON)) (k : String) (chk : JSON → Bool) : Bool :=
  match lookupKey k entries with
  | some v => chk v
  | none => false

/-- Check of an optional key of a voluptuous schema: when the key is
present its value must pass the given validator. -/
def optKey (entries : List (String × JSON)) (k : String) (chk : JSON → Bool) : Bool :=
  match lookupKey k entries with
  | some v => chk v
  | none => true

/-- problem_schema (util.py lines 27 to 41), as the predicate deciding
whether validation succeeds.  The schema is closed: voluptuous rejects
keys outside the declared set, hence the leading conjunct. -/
def problem_schema : JSON → Bool
  | .dict entries =>
      entries.all (fun kv => keyMem kv.1 problemKeys) &&
      reqKey entries "author" (checkStrLen 1 32) &&
      reqKey entries "score" checkScore &&
      reqKey entries "name" (checkStrLen 1 32) &&
      reqKey entries "description" isStr &&
      reqKey entries "category" (checkStrLen 1 32) &&
      reqKey entries "hints" isList &&
      optKey entries "version" (checkStrLen 1 8) &&
      optKey entries "tags" isList &&
      optKey entries "organization" (checkStrLen 1 32) &&
      optKey entries "pkg_description" (checkStrLen 1 256) &&
      optKey entries "pkg_name" (checkStrLen 1 32) &&
      optKey entries "pkg_dependencies" isList &&
      optKey entries "pip_requirements" isList
  | _ => false

/-- bundle_schema (util.py lines 43 to 54), closed like problem_schema. -/
def bundle_schema : JSON → Bool
  | .dict entries =>
      entries.all (fun kv => keyMem kv.1 bundleKeys) &&
      reqKey entries "author" (checkStrLen 1 32) &&
      reqKey entries "problems" isList &&
      reqKey entries "name" (checkStrLen 1 32) &&
      reqKey entries "description" isStr &&
      reqKey entries "categories" isList &&
      optKey entries "version" (checkStrLen 1 8) &&
      optKey entries "tags" isList &&
      optKey entries "organization" (checkStrLen 1 32) &&
      optKey entries "dependencies" isDictV &&
      optKey entries "pkg_dependencies" isList
  | _ => false

/-- config_schema (util.py lines 56 to 65).  Declared with extra=True, so
no closedness conjunct appears: unknown keys are permitted. -/
def config_schema : JSON → Bool
  | .dict entries =>
      reqKey entries "deploy_secret" isStr &&
      reqKey entries "hostname" isStr &&
      reqKey entries "web_server" isStr &&
      reqKey entries "default_user" isStr &&
      reqKey entries "web_root" isStr &&
      reqKey entries "problem_directory_root" isStr &&
      reqKey entries "obfuscate_problem_directories" isBoolV &&
      reqKey entries "banned_ports" isList
  | _ => false

/-- port_range_schema (util.py lines 67 to 70), closed. -/
def port_range_schema : JSON → Bool
  | .dict entries =>
      entries.all (fun kv => keyMem kv.1 portRangeKeys) &&
      reqKey entries "start" checkPort &&
      reqKey entries "end" checkPort
  | _ => false

/-- Dictionary field access port_range[k] after schema validation. -/
def getField (j : JSON) (k : String) : JSON :=
  match j with
  | .dict entries => (lookupKey k entries).getD .null
  | _ => .null

/-- Numeric value of a JSON value that passed the int check; Python bools
compare as 0 and 1. -/
def jsonIntVal : JSON → Int
  | .int n => n
  | .bool b => if b then 1 else 0
  | _ => 0

/-- The list config_object["banned_ports"], guaranteed present and a list
once config_schema has accepted the object. -/
def bannedPortsList (j : JSON) : List JSON :=
  match getField j "banned_ports" with
  | .list items => items
  | _ => []

/-- get_problem_root (util.py lines 139 to 157): join PROBLEM_ROOT with
the sanitized name, assert the result starts with os.sep, and strip the
leading separator unless an absolute path was requested. -/
def get_problem_root (problem_name : String) (absolute : Bool) : Except PyError String :=
  match sanitize_name problem_name with
  | .error e => .error e
  | .ok s =>
    let problem_root := os_path_join PROBLEM_ROOT s
    if pyStartsWith problem_root "/" then
      if absolute then .ok problem_root else .ok (problem_root.drop 1)
    else .error .assertionError

/-- get_bundle_root (util.py lines 182 to 200), identical to
get_problem_root over BUNDLE_ROOT. -/
def get_bundle_root (bundle_name : String) (absolute : Bool) : Except PyError String :=
  match sanitize_name bundle_name with
  | .error e => .error e
  | .ok s =>
    let bundle_root := os_path_join BUNDLE_ROOT s
    if pyStartsWith bundle_root "/" then
      if absolute then .ok bundle_root else .ok (bundle_root.drop 1)
    else .error .assertionError

/-- get_problem (util.py lines 159 to 180).  The argument parsed is the
outcome of json.loads on the file problem.json under problem_path: none
models unparseable content, whose json.JSONDecodeError is raised outside
the try block and therefore propagates uncaught.  Only MultipleInvalid
from schema validation is caught, logged critically and turned into
FatalException. -/
def get_problem (problem_path : String) (parsed : Option JSON) :
    Except PyError JSON × List LogMsg :=
  let json_path := os_path_join problem_path "problem.json"
  match parsed with
  | none => (.error .jsonDecodeError, [])
  | some problem =>
    if problem_schema problem then (.ok problem, [])
    else (.error .fatalException, [.errorValidatingProblem json_path, .excDetail])

/-- get_bundle (util.py lines 202 to 224), identical in structure to
get_problem over bundle.json and bundle_schema. -/
def get_bundle (bundle_path : String) (parsed : Option JSON) :
    Except PyError JSON × List LogMsg :=
  let json_path := os_path_join bundle_path "bundle.json"
  match parsed with
  | none => (.error .jsonDecodeError, [])
  | some bundle =>
    if bundle_schema bundle then (.ok bundle, [])
    else (.error .fatalException, [.errorValidatingBundle json_path, .excDetail])

/-- Loop over config_object["banned_ports"] in get_config (util.py lines
247 to 257): each entry is validated against port_range_schema (a
MultipleInvalid is logged and becomes FatalException) and then checked
with assert start <= end (an AssertionError is logged with both bounds
and becomes FatalException).  The loop stops at the first bad entry. -/
def checkPortRanges (path : String) : List JSON → Except PyError Unit × List LogMsg
  | [] => (.ok (), [])
  | pr :: rest =>
    if port_range_schema pr then
      if jsonIntVal (getField pr "start") ≤ jsonIntVal (getField pr "end") then
        checkPortRanges path rest
      else
        (.error .fatalException,
          [.invalidPortRange (jsonIntVal (getField pr "start")) (jsonIntVal (getField pr "end"))])
    else
      (.error .fatalException, [.errorValidatingPortRange path, .excDetail])

/-- Final loop of get_config (util.py lines 259 to 263): config = object()
followed by config.setattr style assignment of every top-level key.  A
plain object() instance has no attribute dictionary, so the first
assignment raises AttributeError; the loop body runs at least once for
every object accepted by config_schema, which requires eight keys.  The
empty-dictionary arm, in which the loop body never runs and the bare
object is returned, is unreachable after validation, as is the non-dict
arm. -/
def setAttrsResult : JSON → Except PyError Unit
  | .dict [] => .ok ()
  | .dict (_ :: _) => .error .attributeError
  | _ => .ok ()

/-- get_config (util.py lines 226 to 263): parse (none propagates
json.JSONDecodeError uncaught), validate against config_schema (failure is
logged and becomes FatalException), validate every banned port range, then
copy the keys onto a plain object(), which raises AttributeError. -/
def get_config (path : String) (parsed : Option JSON) :
    Except PyError Unit × List LogMsg :=
  match parsed with
  | none => (.error .jsonDecodeError, [])
  | some config_object =>
    if config_schema config_object then
      match checkPortRanges path (bannedPortsList config_object) with
      | (Except.ok _, _) => (setAttrsResult config_object, [])
      | (Except.error e, log) => (Except.error e, log)
    else
      (.error .fatalException, [.errorValidatingConfig path, .excDetail])

/-- Test isdir(path): the path names an existing directory entry. -/
def isdirE : Option FSEntry → Bool
  | some (.dir _) => true
  | _ => false

/-- Test isfile(path): the path names an existing regular file entry. -/
def isfileE : Option FSEntry → Bool
  | some (.file _) => true
  | _ => false

/-- One iteration of the loop of full_copy (util.py lines 113 to 124) for
the source entry named f.  For a directory entry, shutil.copytree is
called only when no directory of that name exists at the destination;
copytree itself fails with FileExistsError (from os.makedirs) when the
destination path exists as a non-directory.  For a file entry,
shutil.copy2 overwrites an existing file of the same name, but when a
directory of that name exists at the destination copy2 places the file
inside that directory under its own base name. -/
def full_copy_step (dst : List (String × FSEntry)) (f : String) (item : FSEntry) :
    Except PyError (List (String × FSEntry)) :=
  match item with
  | .dir sub =>
      if isdirE (lookupKey f dst) then .ok dst
      else if (lookupKey f dst).isSome then .error .fileExistsError
      else .ok (setE f (.dir sub) dst)
  | .file c =>
      match lookupKey f dst with
      | some (.dir sub) => .ok (setE f (.dir (setE f (.file c) sub)) dst)
      | _ => .ok (setE f (.file c) dst)

/-- full_copy (util.py lines 113 to 124): iterate over the entries of the
source directory, skipping names in ignore, applying full_copy_step to
each remaining entry; the first raised exception propagates. -/
def full_copy : List (String × FSEntry) → List (String × FSEntry) → List String →
    Except PyError (List (String × FSEntry))
  | [], dst, _ => .ok dst
  | (f, item) :: rest, dst, ignore =>
    if keyMem f ignore then full_copy rest dst ignore
    else
      match full_copy_step dst f item with
      | .ok d => full_copy rest d ignore
      | .error e => .error e

/-- Membership of a character in a string, as in the Python test
sep in source. -/
def charIn (c : Char) : List Char → Bool
  | [] => false
  | x :: xs => (x == c) || charIn c xs

/-- Model of Python str.split(sep) for the single-character separator
slash: splitting never yields an empty list, and consecutive separators
produce empty segments exactly as in Python. -/
def splitSep : List Char → List (List Char)
  | [] => [[]]
  | c :: rest =>
    match splitSep rest with
    | [] => [[]]
    | s :: ss => if c = '/' then [] :: s :: ss else (c :: s) :: ss

/-- Final segment of a character list split at slashes, as in
source.split(sep)[-1]. -/
def lastSeg (cs : List Char) : List Char :=
  (splitSep cs).getLastD []

/-- file_name computation of move (util.py lines 127 to 130): the final
separator-delimited segment when the separator occurs, the whole string
otherwise. -/
def move_file_name (source : String) : String :=
  if charIn '/' source.data then String.mk (lastSeg source.data) else source

/-- Strip trailing slashes, as shutil._basename does before taking the
base name. -/
def rstripSlash (cs : List Char) : List Char :=
  (cs.reverse.dropWhile (fun c => c == '/')).reverse

/-- Base name used by shutil.move for the destination inside an existing
directory: os.path.basename of the source with trailing separators
stripped. -/
def shutil_basename (source : String) : String :=
  String.mk (lastSeg (rstripSlash source.data))

/-- move (util.py lines 126 to 136) of a regular file whose contents are
source_content into the existing directory destination, whose entries are
given.  When clobber is set and a regular file of the computed name exists
there, it is unlinked first.  shutil.move then refuses (shutil.Error) when
its destination path already exists, and otherwise renames the source into
the directory. -/
def move (source : String) (destination : List (String × FSEntry))
    (source_content : String) (clobber : Bool) :
    Except PyError (List (String × FSEntry)) :=
  let file_name := move_file_name source
  let dst1 :=
    if clobber && isfileE (lookupKey file_name destination) then
      removeE file_name destination
    else destination
  let real_name := shutil_basename source
  if (lookupKey real_name dst1).isSome then .error .shutilError
  else .ok (setE real_name (.file source_content) dst1)


/-! ### Helper lemmas about sanitize_name -/

lemma data_mk (l : List Char) : (String.mk l).data = l := rfl

lemma data_ne_nil_of_ne_empty {name : String} (h : name ≠ "") : name.data ≠ [] := by
  intro hd
  apply h
  obtain ⟨d⟩ := name
  have hd2 : d = [] := hd
  subst hd2
  rfl

lemma isEmpty_false_of_ne_nil {l : List Char} (h : l ≠ []) : l.isEmpty = false := by
  cases l with
  | nil => exact absurd rfl h
  | cons c cs => rfl

lemma sanitize_ok {name : String} (h : name.data ≠ []) :
    sanitize_name name =
      .ok (String.mk (if digitHead (name.data.map subChar) then
        'p' :: name.data.map subChar else name.data.map subChar)) := by
  rcases hcond : digitHead (name.data.map subChar) with _ | _
  · simp [sanitize_name, isEmpty_false_of_ne_nil h, hcond]
  · simp [sanitize_name, isEmpty_false_of_ne_nil h, hcond]

lemma isKeep_subChar (c : Char) : isKeep (subChar c) = true := by
  unfold subChar
  split
  · assumption
  · decide

lemma asciiLower_of_isKeep {c : Char} (h : isKeep c = true) : asciiLower c = c := by
  have h2 : ¬(65 ≤ c.toNat ∧ c.toNat ≤ 90) := by
    simp only [isKeep, decide_eq_true_eq] at h
    omega
  simp [asciiLower, h2]

lemma subChar_of_isKeep {c : Char} (h : isKeep c = true) : subChar c = c := by
  simp [subChar, asciiLower_of_isKeep h, h]

lemma map_subChar_id {l : List Char} (h : ∀ c ∈ l, isKeep c = true) :
    l.map subChar = l := by
  induction l with
  | nil => rfl
  | cons c cs ih =>
    simp only [List.map_cons]
    rw [subChar_of_isKeep (h c (by simp)), ih (fun x hx => h x (by simp [hx]))]

lemma mem_map_subChar_keep {l : List Char} {c : Char} (h : c ∈ l.map subChar) :
    isKeep c = true := by
  obtain ⟨a, _, rfl⟩ := List.mem_map.mp h
  exact isKeep_subChar a

/-- C3: for every non-empty input string, sanitize_name is total and
deterministic, its output is a non-empty string over [a-z0-9+-], the core
of the output is a one-to-one characterwise image of the input (no
collapsing, same length), the p prefix is added exactly when the core
starts with a decimal digit, and the two concrete examples of the spec
hold. -/
theorem sanitize_name_spec (name : String) (h : name ≠ "") :
    ∃ out : String,
      sanitize_name name = .ok out ∧
      out.data = (if digitHead (name.data.map subChar) then
          'p' :: name.data.map subChar else name.data.map subChar) ∧
      (name.data.map subChar).length = name.data.length ∧
      out.data ≠ [] ∧
      (∀ c ∈ out.data, isKeep c = true) ∧
      sanitize_name "My Cool Problem!" = .ok "my-cool-problem-" ∧
      sanitize_name "101 Dalmatians" = .ok "p101-dalmatians" := by
  have hd := data_ne_nil_of_ne_empty h
  have hm : name.data.map subChar ≠ [] := by
    intro hmap
    exact hd (List.map_eq_nil_iff.mp hmap)
  refine ⟨_, sanitize_ok hd, rfl, by simp, ?_, ?_, rfl, rfl⟩
  · show (if digitHead (name.data.map subChar) then 'p' :: name.data.map subChar
        else name.data.map subChar) ≠ []
    split
    · simp
    · exact hm
  · show ∀ c ∈ (if digitHead (name.data.map subChar) then 'p' :: name.data.map subChar
        else name.data.map subChar), isKeep c = true
    intro c hc
    split at hc
    · rcases List.mem_cons.mp hc with rfl | hc2
      · decide
      · exact mem_map_subChar_keep hc2
    · exact mem_map_subChar_keep hc

/-- C3 witness: the theorem instantiated at a concrete non-empty name. -/
theorem sanitize_name_spec_witness :
    ∃ out : String,
      sanitize_name "My Cool Problem!" = .ok out ∧
      out.data = (if digitHead ("My Cool Problem!".data.map subChar) then
          'p' :: "My Cool Problem!".data.map subChar
        else "My Cool Problem!".data.map subChar) ∧
      ("My Cool Problem!".data.map subChar).length = "My Cool Problem!".data.length ∧
      out.data ≠ [] ∧
      (∀ c ∈ out.data, isKeep c = true) ∧
      sanitize_name "My Cool Problem!" = .ok "my-cool-problem-" ∧
      sanitize_name "101 Dalmatians" = .ok "p101-dalmatians" :=
  sanitize_name_spec "My Cool Problem!" (by decide)

/-- C4: sanitize_name on the empty string fails with the invalid-input
error (the Python code raises a bare Exception carrying this message; the
util module defines no dedicated exception class for it), and on every
non-empty input it returns a value without raising. -/
theorem sanitize_name_empty_spec :
    sanitize_name "" = .error (.exception "Can not sanitize an empty field.") ∧
    ∀ name : String, name ≠ "" → ∃ out : String, sanitize_name name = .ok out :=
  ⟨rfl, fun _ h => ⟨_, sanitize_ok (data_ne_nil_of_ne_empty h)⟩⟩

/-- C4 witness: the totality half instantiated at a concrete name. -/
theorem sanitize_name_empty_spec_witness :
    ∃ out : String, sanitize_name "abc" = .ok out :=
  sanitize_name_empty_spec.2 "abc" (by decide)

lemma sanitize_fixed {l : List Char} (hne : l ≠ []) (hkeep : ∀ c ∈ l, isKeep c = true)
    (hdh : digitHead l = false) : sanitize_name (String.mk l) = .ok (String.mk l) := by
  have hdd : (String.mk l).data ≠ [] := hne
  rw [sanitize_ok hdd]
  simp [data_mk, map_subChar_id hkeep, hdh]

/-- C10: sanitize_name is idempotent on its own outputs: sanitizing any
non-empty string a second time returns the first output unchanged, since
every output character lies in [a-z0-9+-] and the output never starts
with a decimal digit. -/
theorem sanitize_name_idempotent (s : String) (h : s ≠ "") :
    ∃ t : String, sanitize_name s = .ok t ∧ sanitize_name t = .ok t := by
  have hd := data_ne_nil_of_ne_empty h
  have hm : s.data.map subChar ≠ [] := by
    intro hmap
    exact hd (List.map_eq_nil_iff.mp hmap)
  refine ⟨_, sanitize_ok hd, sanitize_fixed ?_ ?_ ?_⟩
  · split
    · simp
    · exact hm
  · intro c hc
    split at hc
    · rcases List.mem_cons.mp hc with rfl | hc2
      · decide
      · exact mem_map_subChar_keep hc2
    · exact mem_map_subChar_keep hc
  · rcases hcond : digitHead (s.data.map subChar) with _ | _
    · simp [hcond]
    · simp only [hcond, if_true]
      rfl

/-- C10 witness: idempotence instantiated at a digit-led concrete name. -/
theorem sanitize_name_idempotent_witness :
    ∃ t : String, sanitize_name "101 Dalmatians" = .ok t ∧ sanitize_name t = .ok t :=
  sanitize_name_idempotent "101 Dalmatians" (by decide)

/-! ### Helper lemmas about path joining and the root resolvers -/

lemma data_append (s t : String) : (s ++ t).data = s.data ++ t.data := by
  obtain ⟨a⟩ := s
  obtain ⟨b⟩ := t
  rfl

lemma pyStartsWith_append {s : String} (t : String) (h : pyStartsWith s "/" = true) :
    pyStartsWith (s ++ t) "/" = true := by
  unfold pyStartsWith at *
  rw [List.isPrefixOf_iff_prefix] at *
  rw [data_append]
  exact h.trans (List.prefix_append _ _)

lemma join_startsWith (root s : String) (h1 : pyStartsWith root "/" = true)
    (h2 : (root == "") = false) (h3 : pyEndsWith root "/" = false) :
    pyStartsWith (os_path_join root s) "/" = true := by
  unfold os_path_join
  split
  · assumption
  · rw [h2, h3]
    simp only [Bool.or_self, Bool.false_eq_true, if_false]
    exact pyStartsWith_append s (pyStartsWith_append "/" h1)

lemma get_problem_root_eq {name s : String} (hok : sanitize_name name = .ok s)
    (absolute : Bool) :
    get_problem_root name absolute =
      if absolute then .ok (os_path_join PROBLEM_ROOT s)
      else .ok ((os_path_join PROBLEM_ROOT s).drop 1) := by
  have hs : pyStartsWith (os_path_join PROBLEM_ROOT s) "/" = true :=
    join_startsWith PROBLEM_ROOT s (by decide) (by decide) (by decide)
  unfold get_problem_root
  rw [hok]
  simp [hs]

lemma get_bundle_root_eq {name s : String} (hok : sanitize_name name = .ok s)
    (absolute : Bool) :
    get_bundle_root name absolute =
      if absolute then .ok (os_path_join BUNDLE_ROOT s)
      else .ok ((os_path_join BUNDLE_ROOT s).drop 1) := by
  have hs : pyStartsWith (os_path_join BUNDLE_ROOT s) "/" = true :=
    join_startsWith BUNDLE_ROOT s (by decide) (by decide) (by decide)
  unfold get_bundle_root
  rw [hok]
  simp [hs]

/-- C5: for every non-empty name, get_problem_root with absolute set
returns PROBLEM_ROOT joined with the sanitized name; without absolute it
returns the same path with exactly the leading separator character
stripped; the joined root always starts with the separator, so the
assertion-checked precondition holds; get_bundle_root behaves identically
over BUNDLE_ROOT; and the concrete example of the spec holds. -/
theorem get_roots_spec (name : String) (h : name ≠ "") :
    ∃ s : String, sanitize_name name = .ok s ∧
      get_problem_root name true = .ok (os_path_join PROBLEM_ROOT s) ∧
      get_problem_root name false = .ok ((os_path_join PROBLEM_ROOT s).drop 1) ∧
      pyStartsWith (os_path_join PROBLEM_ROOT s) "/" = true ∧
      get_bundle_root name true = .ok (os_path_join BUNDLE_ROOT s) ∧
      get_bundle_root name false = .ok ((os_path_join BUNDLE_ROOT s).drop 1) ∧
      pyStartsWith (os_path_join BUNDLE_ROOT s) "/" = true ∧
      get_problem_root "My Cool Problem!" true =
        .ok "/opt/hacksports/sources/my-cool-problem-" := by
  have hd := data_ne_nil_of_ne_empty h
  have hok := sanitize_ok hd
  refine ⟨_, hok, ?_, ?_, ?_, ?_, ?_, ?_, rfl⟩
  · simpa using get_problem_root_eq hok true
  · simpa using get_problem_root_eq hok false
  · exact join_startsWith PROBLEM_ROOT _ (by decide) (by decide) (by decide)
  · simpa using get_bundle_root_eq hok true
  · simpa using get_bundle_root_eq hok false
  · exact join_startsWith BUNDLE_ROOT _ (by decide) (by decide) (by decide)

/-- C5 witness: the theorem instantiated at the concrete example name. -/
theorem get_roots_spec_witness :
    ∃ s : String, sanitize_name "My Cool Problem!" = .ok s ∧
      get_problem_root "My Cool Problem!" true = .ok (os_path_join PROBLEM_ROOT s) ∧
      get_problem_root "My Cool Problem!" false =
        .ok ((os_path_join PROBLEM_ROOT s).drop 1) ∧
      pyStartsWith (os_path_join PROBLEM_ROOT s) "/" = true ∧
      get_bundle_root "My Cool Problem!" true = .ok (os_path_join BUNDLE_ROOT s) ∧
      get_bundle_root "My Cool Problem!" false =
        .ok ((os_path_join BUNDLE_ROOT s).drop 1) ∧
      pyStartsWith (os_path_join BUNDLE_ROOT s) "/" = true ∧
      get_problem_root "My Cool Problem!" true =
        .ok "/opt/hacksports/sources/my-cool-problem-" :=
  get_roots_spec "My Cool Problem!" (by decide)

/-! ### Loader behavior: error routing, the banned-ports loop, and the
attribute-assignment defect -/

/-- Concrete valid config object (all required keys present and well
typed, an empty banned_ports list). -/
def cfgEntriesB : List (String × JSON) :=
  [("deploy_secret", .str "topsecret"),
   ("hostname", .str "shell.example.com"),
   ("web_server", .str "http://shell.example.com"),
   ("default_user", .str "hacksports"),
   ("web_root", .str "/srv/web"),
   ("problem_directory_root", .str "/problems"),
   ("obfuscate_problem_directories", .bool false),
   ("banned_ports", .list [])]

/-- Concrete valid config object whose banned_ports holds the single
well-formed range start 50, end 100. -/
def cfgGoodEntries : List (String × JSON) :=
  [("deploy_secret", .str "s3cret"),
   ("hostname", .str "ctf.example.org"),
   ("web_server", .str "http://ctf.example.org"),
   ("default_user", .str "problems"),
   ("web_root", .str "/var/www"),
   ("problem_directory_root", .str "/srv/problems"),
   ("obfuscate_problem_directories", .bool true),
   ("banned_ports", .list [.dict [("start", .int 50), ("end", .int 100)]])]

/-- Concrete config object whose banned_ports starts with the inverted
range start 100, end 50, followed by a malformed entry that is never
examined because the loop raises at the first violation. -/
def cfgBadEntries : List (String × JSON) :=
  [("deploy_secret", .str "s3cret"),
   ("hostname", .str "ctf.example.org"),
   ("web_server", .str "http://ctf.example.org"),
   ("default_user", .str "problems"),
   ("web_root", .str "/var/www"),
   ("problem_directory_root", .str "/srv/problems"),
   ("obfuscate_problem_directories", .bool true),
   ("banned_ports", .list
     [.dict [("start", .int 100), ("end", .int 50)],
      .dict [("bogus", .int 1)]])]

/-- Concrete valid config object used by the schema openness witness. -/
def cfgEntriesC : List (String × JSON) :=
  [("deploy_secret", .str "k"),
   ("hostname", .str "h"),
   ("web_server", .str "w"),
   ("default_user", .str "u"),
   ("web_root", .str "r"),
   ("problem_directory_root", .str "p"),
   ("obfuscate_problem_directories", .bool false),
   ("banned_ports", .list [])]

/-- C2 counterexample: on content that is not parseable as JSON,
get_problem raises the JSON decoding error, which is not FatalException,
and logs nothing; the claim that every parse failure raises
FatalException is therefore false. -/
theorem get_problem_parse_error_uncaught :
    get_problem "/problems/x" none = (.error .jsonDecodeError, []) ∧
    PyError.jsonDecodeError ≠ PyError.fatalException :=
  ⟨rfl, by decide⟩

/-- C2 amended: schema-validation failures of all three loaders are
logged critically (naming the offending file) and raise FatalException,
and a failing banned-ports check in get_config likewise propagates as
FatalException with its log; but unparseable content raises the JSON
decoding error uncaught, with no logging. -/
theorem loaders_error_routing (path : String) (j : JSON) :
    get_problem path none = (.error .jsonDecodeError, []) ∧
    get_bundle path none = (.error .jsonDecodeError, []) ∧
    get_config path none = (.error .jsonDecodeError, []) ∧
    (problem_schema j = false →
      get_problem path (some j) =
        (.error .fatalException,
          [.errorValidatingProblem (os_path_join path "problem.json"), .excDetail])) ∧
    (bundle_schema j = false →
      get_bundle path (some j) =
        (.error .fatalException,
          [.errorValidatingBundle (os_path_join path "bundle.json"), .excDetail])) ∧
    (config_schema j = false →
      get_config path (some j) =
        (.error .fatalException, [.errorValidatingConfig path, .excDetail])) ∧
    (config_schema j = true →
      ∀ e log, checkPortRanges path (bannedPortsList j) = (.error e, log) →
        get_config path (some j) = (.error e, log)) := by
  refine ⟨rfl, rfl, rfl, ?_, ?_, ?_, ?_⟩
  · intro hf
    simp [get_problem, hf]
  · intro hf
    simp [get_bundle, hf]
  · intro hf
    simp [get_config, hf]
  · intro ht e log hcp
    simp [get_config, ht, hcp]

/-- C2 amended witness: the validation-failure arm instantiated at a
concrete object rejected by problem_schema. -/
theorem loaders_error_routing_witness :
    get_problem "/problems/x" (some (JSON.dict [])) =
      (.error .fatalException,
        [.errorValidatingProblem (os_path_join "/problems/x" "problem.json"),
         .excDetail]) :=
  (loaders_error_routing "/problems/x" (JSON.dict [])).2.2.2.1 rfl

/-- C1: on a config object that passes config_schema and whose banned
port ranges all pass the loop checks, get_config does not return an
attribute holder: the assignment loop over a plain object() raises
AttributeError on the first key.  The theorem evaluates the code at a
concrete fully valid config file. -/
theorem get_config_attribute_bug :
    config_schema (.dict cfgEntriesB) = true ∧
    (checkPortRanges "/opt/hacksports/config.json"
      (bannedPortsList (.dict cfgEntriesB))).1 = .ok () ∧
    get_config "/opt/hacksports/config.json" (some (.dict cfgEntriesB)) =
      (.error .attributeError, []) :=
  ⟨rfl, rfl, rfl⟩

/-- C6: a config whose banned_ports holds the inverted range start 100,
end 50 raises FatalException at the first violating entry (the malformed
second entry is never logged), the range start 50, end 100 passes the
whole validation, the port-range schema accepts the literal bound 66635
and rejects 66636 and negative values; but the fully valid config then
fails with AttributeError in the attribute-copy loop instead of
succeeding. -/
theorem get_config_port_range_check :
    get_config "/etc/config.json" (some (.dict cfgBadEntries)) =
      (.error .fatalException, [.invalidPortRange 100 50]) ∧
    (checkPortRanges "/etc/config.json"
      (bannedPortsList (.dict cfgGoodEntries))).1 = .ok () ∧
    get_config "/etc/config.json" (some (.dict cfgGoodEntries)) =
      (.error .attributeError, []) ∧
    port_range_schema (.dict [("start", JSON.int 0), ("end", JSON.int 66635)]) = true ∧
    port_range_schema (.dict [("start", JSON.int 0), ("end", JSON.int 66636)]) = false ∧
    port_range_schema (.dict [("start", JSON.int (-1)), ("end", JSON.int 10)]) = false :=
  ⟨rfl, rfl, rfl, rfl, rfl, rfl⟩

/-! ### Schema closedness and openness -/

lemma all_false_of_mem {l : List (String × JSON)} {x : String × JSON}
    {p : String × JSON → Bool} (hx : x ∈ l) (hpx : p x = false) : l.all p = false := by
  cases hall : l.all p
  · rfl
  · exact absurd (List.all_eq_true.mp hall x hx) (by simp [hpx])

lemma reqKey_cons_ne (a k : String) (v : JSON) (l : List (String × JSON))
    (chk : JSON → Bool) (hne : a ≠ k) :
    reqKey ((k, v) :: l) a chk = reqKey l a chk := by
  simp [reqKey, lookupKey, hne]

/-- C7: the problem schema is closed: any object holding a key outside
the declared key set fails validation; the config schema is open: adding
an unknown key to an object that passes validation keeps it passing, and
the unknown key is preserved in the mapping get_config copies from. -/
theorem schema_open_closed (entries : List (String × JSON)) (k : String) (v : JSON) :
    (keyMem k problemKeys = false → (k, v) ∈ entries →
      problem_schema (.dict entries) = false) ∧
    (keyMem k configKeys = false → config_schema (.dict entries) = true →
      config_schema (.dict ((k, v) :: entries)) = true ∧
      lookupKey k ((k, v) :: entries) = some v) := by
  constructor
  · intro hk hmem
    have hall : entries.all (fun kv => keyMem kv.1 problemKeys) = false :=
      all_false_of_mem hmem hk
    simp [problem_schema, hall]
  · intro hk hcfg
    obtain ⟨n1, n2, n3, n4, n5, n6, n7, n8⟩ :
        ¬(k = "deploy_secret") ∧ ¬(k = "hostname") ∧ ¬(k = "web_server") ∧
        ¬(k = "default_user") ∧ ¬(k = "web_root") ∧
        ¬(k = "problem_directory_root") ∧
        ¬(k = "obfuscate_problem_directories") ∧ ¬(k = "banned_ports") := by
      simpa [keyMem, configKeys] using hk
    have hstep : config_schema (.dict ((k, v) :: entries)) =
        config_schema (.dict entries) := by
      simp only [config_schema]
      rw [reqKey_cons_ne "deploy_secret" k v entries isStr (Ne.symm n1),
        reqKey_cons_ne "hostname" k v entries isStr (Ne.symm n2),
        reqKey_cons_ne "web_server" k v entries isStr (Ne.symm n3),
        reqKey_cons_ne "default_user" k v entries isStr (Ne.symm n4),
        reqKey_cons_ne "web_root" k v entries isStr (Ne.symm n5),
        reqKey_cons_ne "problem_directory_root" k v entries isStr (Ne.symm n6),
        reqKey_cons_ne "obfuscate_problem_directories" k v entries isBoolV (Ne.symm n7),
        reqKey_cons_ne "banned_ports" k v entries isList (Ne.symm n8)]
    constructor
    · rw [hstep]
      exact hcfg
    · simp [lookupKey]

/-- C7 witness: a singleton object with the unknown key zzz is rejected
by problem_schema, and a valid config extended with the same unknown key
is still accepted by config_schema. -/
theorem schema_open_closed_witness :
    problem_schema (.dict [("zzz", JSON.int 0)]) = false ∧
    config_schema (.dict (("zzz", JSON.int 0) :: cfgEntriesC)) = true :=
  ⟨(schema_open_closed [("zzz", JSON.int 0)] "zzz" (JSON.int 0)).1 rfl
      (List.mem_singleton.mpr rfl),
   ((schema_open_closed cfgEntriesC "zzz" (JSON.int 0)).2 rfl rfl).1⟩

/-! ### full_copy -/

/-- C8 counterexample: a source directory entry whose name exists at the
destination as a regular file is not copied: copytree fails with
FileExistsError (the claim, quantified over every destination, requires
the subtree to be copied whenever no same-named directory exists
there). -/
theorem full_copy_dir_onto_file_counterexample :
    full_copy [("x", FSEntry.dir [("y", FSEntry.file "z")])]
      [("x", FSEntry.file "c")] [] = .error .fileExistsError ∧
    full_copy [("x", FSEntry.dir [("y", FSEntry.file "z")])]
      [("x", FSEntry.file "c")] [] ≠
      .ok [("x", FSEntry.dir [("y", FSEntry.file "z")])] := by
  have e : full_copy [("x", FSEntry.dir [("y", FSEntry.file "z")])]
      [("x", FSEntry.file "c")] [] = .error .fileExistsError := rfl
  refine ⟨e, ?_⟩
  rw [e]
  intro hc
  exact Except.noConfusion hc

/-- C8 amended: full_copy visits the source entries in order, skipping
names in the ignore set; a directory entry with a same-named destination
directory is skipped, leaving the destination binding unchanged; a
directory entry absent from the destination is copied as a whole subtree;
a directory entry whose name exists at the destination as a non-directory
raises FileExistsError; a file entry with no same-named destination
directory is copied, overwriting any existing file of that name; and a
file entry with a same-named destination directory is placed inside that
directory under its own name. -/
theorem full_copy_spec (dst : List (String × FSEntry)) (f : String) :
    (∀ item rest ignore, keyMem f ignore = true →
      full_copy ((f, item) :: rest) dst ignore = full_copy rest dst ignore) ∧
    (∀ item rest ignore, keyMem f ignore = false →
      full_copy ((f, item) :: rest) dst ignore =
        match full_copy_step dst f item with
        | .ok d => full_copy rest d ignore
        | .error e => .error e) ∧
    (∀ sub, isdirE (lookupKey f dst) = true →
      full_copy_step dst f (.dir sub) = .ok dst) ∧
    (∀ sub, lookupKey f dst = none →
      full_copy_step dst f (.dir sub) = .ok (setE f (.dir sub) dst)) ∧
    (∀ sub c, lookupKey f dst = some (.file c) →
      full_copy_step dst f (.dir sub) = .error .fileExistsError) ∧
    (∀ c, isdirE (lookupKey f dst) = false →
      full_copy_step dst f (.file c) = .ok (setE f (.file c) dst)) ∧
    (∀ c sub, lookupKey f dst = some (.dir sub) →
      full_copy_step dst f (.file c) = .ok (setE f (.dir (setE f (.file c) sub)) dst)) := by
  refine ⟨?_, ?_, ?_, ?_, ?_, ?_, ?_⟩
  · intro item rest ignore hig
    simp [full_copy, hig]
  · intro item rest ignore hig
    simp [full_copy, hig]
  · intro sub hdir
    simp [full_copy_step, hdir]
  · intro sub hnone
    simp [full_copy_step, hnone, isdirE]
  · intro sub c hfile
    simp [full_copy_step, hfile, isdirE]
  · intro c hnd
    unfold full_copy_step
    cases hlk : lookupKey f dst with
    | none => simp
    | some entry =>
      cases entry with
      | file c2 => simp
      | dir sub =>
        rw [hlk] at hnd
        simp [isdirE] at hnd
  · intro c sub hdir
    simp [full_copy_step, hdir]

/-- C8 amended witness: the skip arm instantiated concretely: a
destination directory of the same name is left untouched. -/
theorem full_copy_spec_witness :
    full_copy_step [("a", FSEntry.dir [("q", FSEntry.file "w")])] "a"
      (FSEntry.dir [("b", FSEntry.file "c")]) =
      .ok [("a", FSEntry.dir [("q", FSEntry.file "w")])] :=
  (full_copy_spec [("a", FSEntry.dir [("q", FSEntry.file "w")])] "a").2.2.1
    [("b", FSEntry.file "c")] rfl

/-! ### move -/

lemma splitSep_no_sep {cs : List Char} (h : ∀ c ∈ cs, c ≠ '/') : splitSep cs = [cs] := by
  induction cs with
  | nil => rfl
  | cons c rest ih =>
    have hr := ih (fun x hx => h x (List.mem_cons_of_mem _ hx))
    simp [splitSep, hr, h c (List.mem_cons_self _ _)]

lemma charIn_false_forall {c : Char} {cs : List Char} (h : charIn c cs = false) :
    ∀ x ∈ cs, x ≠ c := by
  induction cs with
  | nil =>
    intro x hx
    simp at hx
  | cons y ys ih =>
    simp only [charIn, Bool.or_eq_false_iff] at h
    intro x hx
    rcases List.mem_cons.mp hx with rfl | hx2
    · simpa using h.1
    · exact ih h.2 x hx2

lemma rstrip_id {cs : List Char} (h : cs.getLastD '/' ≠ '/') : rstripSlash cs = cs := by
  unfold rstripSlash
  cases hrev : cs.reverse with
  | nil =>
    have hnil : cs = [] := by simpa using congrArg List.reverse hrev
    subst hnil
    exact absurd rfl h
  | cons a as =>
    have hlast : cs.getLastD '/' = a := by
      have h1 : cs.getLast? = some a := by
        rw [← List.head?_reverse, hrev]
        rfl
      rw [List.getLastD_eq_getLast?, h1]
      rfl
    have ha : (a == '/') = false := by
      rw [beq_eq_false_iff_ne]
      rw [hlast] at h
      exact h
    rw [List.dropWhile_cons, ha]
    simp only [Bool.false_eq_true, if_false]
    rw [← hrev, List.reverse_reverse]

lemma lookup_removeE {α : Type} (k : String) (l : List (String × α)) :
    lookupKey k (removeE k l) = none := by
  induction l with
  | nil => rfl
  | cons kv rest ih =>
    obtain ⟨k2, v2⟩ := kv
    unfold removeE
    split
    · exact ih
    · rename_i hne
      have hne2 : (k == k2) = false := by
        rw [beq_eq_false_iff_ne]
        intro he
        exact hne (by simp [he])
      simp [lookupKey, hne2, ih]

lemma basename_eq_move_file_name {source : String}
    (hs : source.data.getLastD '/' ≠ '/') :
    shutil_basename source = move_file_name source := by
  unfold shutil_basename move_file_name
  rw [rstrip_id hs]
  split
  · rfl
  · rename_i hcf
    have hc : charIn '/' source.data = false := by
      cases hcc : charIn '/' source.data
      · rfl
      · exact absurd hcc hcf
    have hall := charIn_false_forall hc
    unfold lastSeg
    rw [splitSep_no_sep hall]
    obtain ⟨d⟩ := source
    rfl

/-- C9: move computes the destination file name as the final
separator-delimited segment of the source path; with clobber set and a
regular file of that name already present at the destination, that file
is unlinked first and the move then succeeds, the destination holding the
moved contents; with no entry of that name present, the move succeeds for
either clobber value; and with clobber unset no pre-deletion occurs: the
move is attempted as-is and shutil.Error results exactly when the
destination name is taken.  The hypothesis excludes source paths with a
trailing separator, which cannot name a regular file. -/
theorem move_spec (source : String) (dst : List (String × FSEntry)) (content : String)
    (hs : source.data.getLastD '/' ≠ '/') :
    move_file_name source = String.mk (lastSeg source.data) ∧
    (∀ c, lookupKey (move_file_name source) dst = some (.file c) →
      move source dst content true =
        .ok (setE (move_file_name source) (.file content)
          (removeE (move_file_name source) dst))) ∧
    (lookupKey (move_file_name source) dst = none →
      ∀ clobber, move source dst content clobber =
        .ok (setE (move_file_name source) (.file content) dst)) ∧
    (move source dst content false =
      if (lookupKey (move_file_name source) dst).isSome then .error .shutilError
      else .ok (setE (move_file_name source) (.file content) dst)) := by
  have hbn := basename_eq_move_file_name hs
  refine ⟨?_, ?_, ?_, ?_⟩
  · unfold move_file_name
    split
    · rfl
    · rename_i hcf
      have hc : charIn '/' source.data = false := by
        cases hcc : charIn '/' source.data
        · rfl
        · exact absurd hcc hcf
      unfold lastSeg
      rw [splitSep_no_sep (charIn_false_forall hc)]
      obtain ⟨d⟩ := source
      rfl
  · intro c hc
    simp [move, hbn, hc, isfileE, lookup_removeE]
  · intro hnone clobber
    simp [move, hbn, hnone, isfileE]
  · simp [move, hbn]

/-- C9 witness: clobbering move onto an existing same-named file at a
concrete input. -/
theorem move_spec_witness :
    move "/tmp/a.txt" [("a.txt", FSEntry.file "old")] "new" true =
      .ok (setE (move_file_name "/tmp/a.txt") (.file "new")
        (removeE (move_file_name "/tmp/a.txt") [("a.txt", FSEntry.file "old")])) :=
  (move_spec "/tmp/a.txt" [("a.txt", FSEntry.file "old")] "new" (by decide)).2.1
    "old" rfl
